import Mathlib

/-!
Verification of the snore terminal timer (src/main.rs).

The program parses duration tokens (NUMBER[UNIT]) into a total
std::time::Duration, then runs a fixed-tick display loop until the total
has elapsed.

Modelling conventions for the shallow embedding:

- A std::time::Duration is modelled as a natural number of nanoseconds
  (Duration stores u64 seconds plus a sub-second nanosecond count, so it
  is exactly a non-negative integer number of nanoseconds, bounded by
  durationMaxNanos).
- A Rust f64 value is modelled as an exact rational number.  Every
  numeric value appearing in the claims under scrutiny (small integers,
  and products or quotients with 1000, 60, 3600, 86400) is exactly
  representable in f64 and the f64 operations on them are exact, so the
  rational model agrees with the IEEE computation at every point used by
  a theorem below.
- Panics are modelled as a distinguished outcome (a dedicated
  constructor or Option.none), never as a defaulted value:
  Duration::from_secs_f64 panics on negative or overflowing input,
  Duration addition panics on overflow and Duration subtraction panics
  on underflow.
- The wall clock is modelled as the list of elapsed readings the loop
  observes, one per iteration, in order.  Output is modelled as the list
  of emitted repaint events.

Batteries marks the arithmetic on Rat irreducible, which would keep
kernel evaluation of concrete parses from unfolding; the arithmetic is
restored to its definitional behaviour for this file only.
-/

attribute [local semireducible] Rat.mul Rat.add Rat.inv

namespace Snore

/-- Rust ParsingError (src/main.rs lines 25-29). -/
inductive ParsingError where
  | InvalidNumber
  | InvalidUnit
deriving DecidableEq, Repr

/-- The Display impl for ParsingError (src/main.rs lines 31-38). -/
def errorMessage : ParsingError → String
  | .InvalidNumber => "Error: Invalid number format"
  | .InvalidUnit => "Error: Invalid unit format"

/-- Outcome of parse_duration: a Rust Ok(duration) in nanoseconds, an
Err(ParsingError), or a panic raised while converting a token's value to
a Duration (Duration::from_secs_f64 on a negative, non-finite or
overflowing value, or overflow of the += accumulation). -/
inductive ParseResult where
  | ok (total : ℕ)
  | error (e : ParsingError)
  | panicked
deriving DecidableEq, Repr

/-- Token split (src/main.rs lines 49-53): find the first alphabetic
character; the part before it is the numeric text and the part from it
onward is the unit; with no alphabetic character the whole token is the
numeric text and the unit defaults to "s".  Char.isAlpha stands in for
char::is_alphabetic (they agree on all ASCII input, which is all the
claims exercise). -/
def splitToken (s : List Char) : List Char × List Char :=
  match s.findIdx? (fun c => c.isAlpha) with
  | some i => (s.take i, s.drop i)
  | none => (s, ['s'])

/-- Digit run to a natural number, most significant digit first. -/
def digitsToNat (s : List Char) : ℕ :=
  s.foldl (fun a c => 10 * a + (c.toNat - 48)) 0

/-- Powers of ten as rationals, written as a recursion so that concrete
instances evaluate by kernel reduction. -/
def pow10 : ℕ → ℚ
  | 0 => 1
  | n + 1 => 10 * pow10 n

/-- Model of str::parse::<f64> (src/main.rs line 55) restricted to
strings that contain no alphabetic character, which is the only kind of
string the token split can produce as a numeric part (the split happens
at the first alphabetic character, so the forms with letters - inf, nan
and exponents - are out of reach).  On such strings the accepted f64
grammar is
  Sign? ( Digits ( Dot Digits? )? | Dot Digits )
with Sign one of + or -.  The value is returned as an exact rational;
the real parser rounds it to the nearest f64, which is the identity on
every value a theorem below feeds through it. -/
def parseF64 (s : List Char) : Option ℚ :=
  let (sgn, rest) :=
    match s with
    | '-' :: r => ((-1 : ℚ), r)
    | '+' :: r => ((1 : ℚ), r)
    | r => ((1 : ℚ), r)
  let intPart := rest.takeWhile Char.isDigit
  let rest2 := rest.dropWhile Char.isDigit
  match rest2 with
  | [] =>
      if intPart.isEmpty then none
      else some (sgn * (digitsToNat intPart : ℚ))
  | '.' :: fracRest =>
      let fracPart := fracRest.takeWhile Char.isDigit
      let rest3 := fracRest.dropWhile Char.isDigit
      if rest3.isEmpty && !(intPart.isEmpty && fracPart.isEmpty) then
        some (sgn * ((digitsToNat intPart : ℚ)
          + (digitsToNat fracPart : ℚ) / pow10 fracPart.length))
      else none
  | _ => none

/-- Largest value a std::time::Duration can hold, in nanoseconds:
u64::MAX seconds plus 999 999 999 nanoseconds. -/
def durationMaxNanos : ℕ := (2 ^ 64 - 1) * 1000000000 + 999999999

/-- Model of Duration::from_secs_f64: round the seconds value to the
nearest nanosecond; a negative or overflowing input panics (modelled as
none).  The r.num < 0 test is the sign test on the seconds value
(a rational is negative exactly when its reduced numerator is), and for
a non-negative value r * 10^9 = a/b the nearest integer is
(2*a + b) / (2*b) by floor division.  The Rust implementation breaks
ties to even while this expression breaks ties upward; no value used by
a theorem below sits on a tie. -/
def fromSecsF64 (q : ℚ) : Option ℕ :=
  if q.num < 0 then none
  else
    let r := q * 1000000000
    let ns := (2 * r.num.toNat + r.den) / (2 * r.den)
    if durationMaxNanos < ns then none else some ns

/-- Unit conversion table (src/main.rs lines 61-68): each recognized
unit scales the number into seconds before the Duration conversion; an
unrecognized unit is the InvalidUnit error.  The inner Option is the
panic of Duration::from_secs_f64. -/
def unitToDuration (number : ℚ) (unit : List Char) : Except ParsingError (Option ℕ) :=
  match unit with
  | ['m', 's'] => .ok (fromSecsF64 (number / 1000))
  | ['s'] => .ok (fromSecsF64 number)
  | ['m'] => .ok (fromSecsF64 (number * 60))
  | ['h'] => .ok (fromSecsF64 (number * 60 * 60))
  | ['d'] => .ok (fromSecsF64 (number * 60 * 60 * 24))
  | _ => .error .InvalidUnit

/-- Duration addition (the += on line 61); panics (none) on overflow. -/
def addDuration (d x : ℕ) : Option ℕ :=
  if durationMaxNanos < d + x then none else some (d + x)

/-- Model of parse_duration (src/main.rs lines 45-72): fold over the
tokens accumulating nanoseconds, aborting on the first rejected token
and propagating any Duration panic. -/
def parse_duration (arguments : List String) : ParseResult :=
  go 0 arguments
where
  go (acc : ℕ) : List String → ParseResult
  | [] => .ok acc
  | argument :: rest =>
    let (value, unit) := splitToken argument.toList
    match parseF64 value with
    | none => .error .InvalidNumber
    | some number =>
      match unitToDuration number unit with
      | .error e => .error e
      | .ok none => .panicked
      | .ok (some x) =>
        match addDuration acc x with
        | none => .panicked
        | some acc2 => go acc2 rest

/-- Decimal rendering of a natural number left-padded with zeros to the
given minimum width, as the Rust format specifier 0N does. -/
def padNum (width n : ℕ) : String :=
  String.mk (List.replicate (width - (toString n).length) '0') ++ toString n

/-- Model of format_duration (src/main.rs lines 75-101): cascade the
total seconds into days, hours, minutes and seconds, take the
milliseconds from the total milliseconds modulo 1000, and join the day
part (present only when positive) with the always-present padded
hour/minute/second/millisecond part.  The argument is the Duration in
nanoseconds; as_secs is division by 10^9 and as_millis division by
10^6. -/
def format_duration (d : ℕ) : String :=
  let totalSeconds := d / 1000000000
  let totalMilliseconds := d / 1000000
  let days := totalSeconds / (60 * 60 * 24)
  let afterDays := totalSeconds % (60 * 60 * 24)
  let hours := afterDays / (60 * 60)
  let afterHours := afterDays % (60 * 60)
  let minutes := afterHours / 60
  let seconds := afterHours % 60
  let milliseconds := totalMilliseconds % 1000
  let parts :=
    (if days > 0 then [toString days ++ "d"] else []) ++
      [padNum 2 hours ++ "h " ++ padNum 2 minutes ++ "m "
        ++ padNum 2 seconds ++ "s " ++ padNum 3 milliseconds ++ "ms"]
  String.intercalate " " parts

/-- The two display flags of the CLI (src/main.rs lines 11-23). -/
structure Options where
  print_ascending_time : Bool
  print_descending_time : Bool
deriving DecidableEq, Repr

/-- Subtraction of std::time::Duration values (total - elapsed on line
134); panics (none) when the subtrahend exceeds the minuend. -/
def durationSub (a b : ℕ) : Option ℕ :=
  if b ≤ a then some (a - b) else none

/-- Status text printed by one running tick after the clear-line escape
(src/main.rs lines 126-135): the elapsed time when the ascending flag is
set, a separator exactly when both flags are set, the remaining time
when the descending flag is set.  The none outcome is the panic of the
Duration subtraction. -/
def tickText (o : Options) (total elapsed : ℕ) : Option String :=
  let ascendingPart := if o.print_ascending_time then format_duration elapsed else ""
  let separator :=
    if o.print_ascending_time && o.print_descending_time then " | " else ""
  if o.print_descending_time then
    match durationSub total elapsed with
    | none => none
    | some remaining => some (ascendingPart ++ separator ++ format_duration remaining)
  else some (ascendingPart ++ separator)

/-- The same tick status text written with the truncated subtraction of
naturals; tickText agrees with it whenever elapsed has not passed
total. -/
def tickString (o : Options) (total elapsed : ℕ) : String :=
  (if o.print_ascending_time then format_duration elapsed else "")
    ++ (if o.print_ascending_time && o.print_descending_time then " | " else "")
    ++ (if o.print_descending_time then format_duration (total - elapsed) else "")

/-- One emitted piece of terminal output.  A repaint event stands for
printing the clear-line escape followed by the text, without a trailing
newline, then flushing; a finalLine event stands for the clear-line
escape followed by the text and a newline (src/main.rs lines 124-137 and
141-142). -/
inductive OutputEvent where
  | repaint (text : String)
  | finalLine (text : String)
deriving DecidableEq, Repr

/-- Result of the display loop on a given sequence of clock readings:
finished carries the whole output and stands for falling through to the
final print and returning Ok(()) - process success; outOfSamples is a
model artifact marking that the given reading sequence ended before the
timer expired; panicked marks an underflowing Duration subtraction. -/
inductive RunResult where
  | finished (events : List OutputEvent)
  | outOfSamples
  | panicked
deriving DecidableEq, Repr

/-- True only for the panic outcome of a run. -/
def RunResult.isPanicked : RunResult → Bool
  | .panicked => true
  | _ => false

/-- Model of the display loop and final print (src/main.rs lines
117-142).  The list holds the elapsed readings the loop observes, one
per iteration, in order.  Each iteration first compares its reading with
the total and exits the loop on elapsed >= total; otherwise it emits one
repaint carrying the tick status text and continues.  On exit the final
line always carries the formatted full total. -/
def runLoop (o : Options) (total : ℕ) (samples : List ℕ) : RunResult :=
  go [] samples
where
  go (acc : List OutputEvent) : List ℕ → RunResult
  | [] => .outOfSamples
  | elapsed :: rest =>
    if total ≤ elapsed then
      .finished (acc ++ [.finalLine (format_duration total)])
    else
      match tickText o total elapsed with
      | none => .panicked
      | some text => go (acc ++ [.repaint text]) rest

/-- What main does with the parse outcome (src/main.rs lines 106-112):
an error is printed on the error stream via its Display text and the
process exits with status 1 before the timer starts; a successful parse
proceeds to the timer loop with the parsed total.  none is an
unreachable parse panic. -/
inductive MainOutcome where
  | parseFailure (stderrLine : String) (exitCode : ℕ)
  | timer (total : ℕ)
deriving DecidableEq, Repr

/-- The pre-loop phase of main. -/
def mainParsePhase (times : List String) : Option MainOutcome :=
  match parse_duration times with
  | .ok d => some (.timer d)
  | .error e => some (.parseFailure (errorMessage e) 1)
  | .panicked => none

/-- The five unit suffixes the parser recognizes. -/
def recognizedUnits : List (List Char) :=
  [['m', 's'], ['s'], ['m'], ['h'], ['d']]

/-- Formatter written from the specification text for section 4.2: days,
hours, minutes and seconds by floor-division cascades, milliseconds from
the total milliseconds modulo 1000; a day prefix only when days exceed
zero, then the four zero-padded fields.  Stated separately from
format_duration so that their agreement is a theorem, not a
restatement. -/
def format_spec (d : ℕ) : String :=
  let totalSeconds := d / 1000000000
  let days := totalSeconds / 86400
  let afterDays := totalSeconds % 86400
  let hours := afterDays / 3600
  let afterHours := afterDays % 3600
  let minutes := afterHours / 60
  let seconds := afterHours % 60
  let milliseconds := (d / 1000000) % 1000
  (if days > 0 then toString days ++ "d " else "")
    ++ padNum 2 hours ++ "h " ++ padNum 2 minutes ++ "m "
    ++ padNum 2 seconds ++ "s " ++ padNum 3 milliseconds ++ "ms"

section Helpers

lemma intercalate_single (s a : String) : String.intercalate s [a] = a := rfl

lemma intercalate_pair (s a b : String) : String.intercalate s [a, b] = a ++ s ++ b := rfl

/-- A rational is negative exactly when its reduced numerator is. -/
lemma num_neg_iff (q : ℚ) : q.num < 0 ↔ q < 0 := by
  constructor
  · intro h
    by_contra hq
    exact absurd (Rat.num_nonneg.mpr (not_lt.mp hq)) (not_le.mpr h)
  · intro h
    by_contra hn
    exact absurd (Rat.num_nonneg.mp (not_lt.mp hn)) (not_le.mpr h)

/-- The split leaves the whole token as numeric text when no character
is alphabetic. -/
lemma splitToken_no_alpha (s : List Char) (h : ∀ c ∈ s, ¬ c.isAlpha) :
    splitToken s = (s, ['s']) := by
  unfold splitToken
  have hn : s.findIdx? (fun c => c.isAlpha) = none := by
    rw [List.findIdx?_eq_none_iff]
    intro x hx
    simpa using h x hx
  rw [hn]

/-- An unrecognized unit suffix falls through the conversion match to
the InvalidUnit error. -/
lemma unitToDuration_unrecognized (n : ℚ) (u : List Char)
    (h : u ∉ recognizedUnits) : unitToDuration n u = .error .InvalidUnit := by
  unfold unitToDuration
  split
  · exact absurd (by decide) h
  · exact absurd (by decide) h
  · exact absurd (by decide) h
  · exact absurd (by decide) h
  · exact absurd (by decide) h
  · rfl

/-- A token whose numeric text does not parse aborts the fold with
InvalidNumber whatever follows. -/
lemma go_invalidNumber (acc : ℕ) (arg : String) (rest : List String)
    (h : parseF64 (splitToken arg.toList).1 = none) :
    parse_duration.go acc (arg :: rest) = .error .InvalidNumber := by
  rcases hs : splitToken arg.toList with ⟨v, u⟩
  rw [hs] at h
  simp only at h
  unfold parse_duration.go
  rw [hs]
  simp [h]

/-- A token whose numeric text parses but whose unit is unrecognized
aborts the fold with InvalidUnit whatever follows. -/
lemma go_invalidUnit (acc : ℕ) (arg : String) (rest : List String) (n : ℚ)
    (hv : parseF64 (splitToken arg.toList).1 = some n)
    (hu : (splitToken arg.toList).2 ∉ recognizedUnits) :
    parse_duration.go acc (arg :: rest) = .error .InvalidUnit := by
  rcases hs : splitToken arg.toList with ⟨v, u⟩
  rw [hs] at hv hu
  simp only at hv hu
  unfold parse_duration.go
  rw [hs]
  simp [hv, unitToDuration_unrecognized n u hu]

/-- While elapsed has not passed total, the tick body cannot hit the
subtraction panic and writes exactly the tick status text. -/
lemma tickText_eq (o : Options) (total elapsed : ℕ) (h : elapsed ≤ total) :
    tickText o total elapsed = some (tickString o total elapsed) := by
  unfold tickText tickString durationSub
  by_cases hd : o.print_descending_time
  · simp [hd, h]
  · simp [hd]

/-- Unfolding of the loop on a reading sequence whose first expired
reading is e: every earlier reading produces one repaint with its tick
text, the expired reading produces none, everything after it is never
looked at, and the run finishes with the final full-total line. -/
lemma runLoop_go_spec (o : Options) (total : ℕ) :
    ∀ (pre : List ℕ) (e : ℕ) (post : List ℕ) (acc : List OutputEvent),
      (∀ x ∈ pre, x < total) → total ≤ e →
      runLoop.go o total acc (pre ++ e :: post) =
        .finished (acc ++ pre.map (fun x => .repaint (tickString o total x))
          ++ [.finalLine (format_duration total)]) := by
  intro pre
  induction pre with
  | nil =>
    intro e post acc _ he
    unfold runLoop.go
    simp [he]
  | cons x xs ih =>
    intro e post acc hpre he
    have hx : x < total := hpre x (by simp)
    have hxs : ∀ y ∈ xs, y < total := fun y hy => hpre y (by simp [hy])
    rw [List.cons_append]
    unfold runLoop.go
    rw [if_neg (not_le.mpr hx), tickText_eq o total x (le_of_lt hx)]
    simp only
    rw [ih e post (acc ++ [OutputEvent.repaint (tickString o total x)]) hxs he]
    simp

/-- The loop never reaches the subtraction panic: the tick body runs
only under the guard elapsed < total. -/
lemma runLoop_go_no_panic (o : Options) (total : ℕ) :
    ∀ (samples : List ℕ) (acc : List OutputEvent),
      (runLoop.go o total acc samples).isPanicked = false := by
  intro samples
  induction samples with
  | nil => intro acc; rfl
  | cons e rest ih =>
    intro acc
    unfold runLoop.go
    by_cases h : total ≤ e
    · rw [if_pos h]; rfl
    · rw [if_neg h, tickText_eq o total e (le_of_lt (not_le.mp h))]
      exact ih _

/-- Merging the literal day suffix with the following join separator. -/
lemma d_space_append (rest : String) :
    ("d" : String) ++ (" " ++ rest) = "d " ++ rest := by
  rw [← String.append_assoc]
  congr 1

/-- The two formatter presentations agree on every duration. -/
lemma format_duration_eq_spec (d : ℕ) : format_duration d = format_spec d := by
  unfold format_duration format_spec
  norm_num
  by_cases hd : 0 < d / 1000000000 / 86400
  · simp only [hd, if_true, List.singleton_append, intercalate_pair]
    simp [String.append_assoc, d_space_append]
  · simp only [hd, if_false, List.nil_append, intercalate_single]
    simp [String.append_assoc]

end Helpers

/-- C1: the spec says a token with a negative numeric part (such as -5s)
is accepted, with the negative contribution subtracting from the running
total and no error.  On the code this is false: the numeric parse does
accept the negative value, but Duration::from_secs_f64 panics on any
negative input, so parsing 10s followed by -5s panics instead of
producing the 5-second total the claim predicts. -/
theorem c1_counterexample_negative_token :
    parse_duration ["10s"] = .ok 10000000000
    ∧ parse_duration ["10s", "-5s"] = .panicked
    ∧ (ParseResult.panicked ≠ .ok 5000000000) :=
  ⟨by decide, by decide, by decide⟩

/-- C1 (amended): the negative numeric part is accepted by the numeric
parse, but the conversion of the negative contribution to a Duration
panics, so the program aborts rather than subtracting it from the
running total. -/
theorem c1_negative_accepted_then_conversion_panics :
    parseF64 (String.toList "-5") = some (-5)
    ∧ (∀ q : ℚ, q < 0 → fromSecsF64 q = none)
    ∧ parse_duration ["10s", "-5s"] = .panicked := by
  refine ⟨by decide, ?_, by decide⟩
  intro q h
  unfold fromSecsF64
  rw [if_pos ((num_neg_iff q).mpr h)]

/-- C1 witness: the amended theorem applied at the value -5. -/
theorem c1_witness : ((-5 : ℚ) < 0) ∧ fromSecsF64 (-5) = none :=
  ⟨by decide, c1_negative_accepted_then_conversion_panics.2.1 (-5) (by decide)⟩

/-- C2: the unit conversion identities hold over parse; in the rational
model the four pairs are equal exactly, which is within any
floating-point tolerance. -/
theorem c2_unit_conversion_identities :
    parse_duration ["1000ms"] = parse_duration ["1s"]
    ∧ parse_duration ["1m"] = parse_duration ["60s"]
    ∧ parse_duration ["1h"] = parse_duration ["60m"]
    ∧ parse_duration ["1d"] = parse_duration ["24h"] :=
  ⟨by decide, by decide, by decide, by decide⟩

/-- C3: for every duration the formatted text is the spec layout - a
non-padded day count and a space only when days exceed zero, then the
2-padded hours, minutes and seconds and the 3-padded milliseconds - and
the two boundary instances print as stated. -/
theorem c3_format_layout :
    (∀ d : ℕ, format_duration d = format_spec d)
    ∧ format_duration (90061500 * 1000000) = "1d 01h 01m 01s 500ms"
    ∧ format_duration (3661000 * 1000000) = "01h 01m 01s 000ms" :=
  ⟨format_duration_eq_spec, by decide, by decide⟩

/-- C4: on any reading sequence whose first expired reading is e, the
loop emits one repaint per earlier reading, exits at e without
repainting that tick, and the run finishes - main returns Ok(()) - with
one final line carrying the formatted full total, an expression
independent of the display flags. -/
theorem c4_loop_exit_and_final_repaint (o : Options) (total : ℕ)
    (pre : List ℕ) (e : ℕ) (post : List ℕ)
    (hpre : ∀ x ∈ pre, x < total) (he : total ≤ e) :
    runLoop o total (pre ++ e :: post) =
      .finished ((pre.map fun x => OutputEvent.repaint (tickString o total x))
        ++ [.finalLine (format_duration total)]) := by
  unfold runLoop
  rw [runLoop_go_spec o total pre e post [] hpre he]
  simp

/-- C4 witness: a run over the readings 0, 5, 12, 99 against a total of
10 repaints twice, exits at 12, and prints the 10-nanosecond total. -/
theorem c4_witness :
    runLoop ⟨true, true⟩ 10 [0, 5, 12, 99] =
      .finished (([0, 5].map fun x => OutputEvent.repaint (tickString ⟨true, true⟩ 10 x))
        ++ [.finalLine (format_duration 10)]) :=
  c4_loop_exit_and_final_repaint ⟨true, true⟩ 10 [0, 5] 12 [99] (by decide) (by decide)

/-- C5: a token whose numeric text does not parse fails the whole parse
with InvalidNumber whatever follows, one with an unrecognized unit
suffix fails it with InvalidUnit, and main maps either error to its
exact message on the error stream and exit status 1 instead of reaching
the timer. -/
theorem c5_parse_failure_modes :
    (∀ (acc : ℕ) (arg : String) (rest : List String),
        parseF64 (splitToken arg.toList).1 = none →
        parse_duration.go acc (arg :: rest) = .error .InvalidNumber)
    ∧ (∀ (acc : ℕ) (arg : String) (rest : List String) (n : ℚ),
        parseF64 (splitToken arg.toList).1 = some n →
        (splitToken arg.toList).2 ∉ recognizedUnits →
        parse_duration.go acc (arg :: rest) = .error .InvalidUnit)
    ∧ (∀ (times : List String) (e : ParsingError),
        parse_duration times = .error e →
        mainParsePhase times = some (.parseFailure (errorMessage e) 1))
    ∧ errorMessage .InvalidNumber = "Error: Invalid number format"
    ∧ errorMessage .InvalidUnit = "Error: Invalid unit format" := by
  refine ⟨go_invalidNumber, go_invalidUnit, ?_, rfl, rfl⟩
  intro times e h
  unfold mainParsePhase
  rw [h]

/-- C5 witness: the failure modes at the spec's own examples abcs and
10x. -/
theorem c5_witness :
    parse_duration.go 0 ["abcs"] = .error .InvalidNumber
    ∧ parse_duration.go 0 ["10x"] = .error .InvalidUnit
    ∧ mainParsePhase ["10x"] = some (.parseFailure (errorMessage .InvalidUnit) 1) :=
  ⟨c5_parse_failure_modes.1 0 "abcs" [] (by decide),
    c5_parse_failure_modes.2.1 0 "10x" [] 10 (by decide) (by decide),
    c5_parse_failure_modes.2.2.1 ["10x"] .InvalidUnit (by decide)⟩

/-- C6: the loop never reaches the Duration subtraction panic - the
remaining time is only computed under the guard elapsed < total, so the
subtraction is always well defined. -/
theorem c6_remaining_never_underflows (o : Options) (total : ℕ)
    (samples : List ℕ) : (runLoop o total samples).isPanicked = false := by
  unfold runLoop
  exact runLoop_go_no_panic o total samples []

/-- C7: the tick text contains the separator exactly when both flags
are set - spelled out over all four flag pairs - and with neither flag
set every intermediate repaint carries empty text, the only printed line
being the final full-duration one. -/
theorem c7_separator_and_silent_mode :
    (∀ total e : ℕ, tickString ⟨true, true⟩ total e
        = format_duration e ++ " | " ++ format_duration (total - e))
    ∧ (∀ total e : ℕ, tickString ⟨true, false⟩ total e = format_duration e)
    ∧ (∀ total e : ℕ, tickString ⟨false, true⟩ total e = format_duration (total - e))
    ∧ (∀ total e : ℕ, tickString ⟨false, false⟩ total e = "")
    ∧ (∀ (total : ℕ) (pre : List ℕ) (e : ℕ) (post : List ℕ),
        (∀ x ∈ pre, x < total) → total ≤ e →
        runLoop ⟨false, false⟩ total (pre ++ e :: post) =
          .finished ((pre.map fun _ => OutputEvent.repaint "")
            ++ [.finalLine (format_duration total)])) := by
  refine ⟨fun total e => by simp [tickString], fun total e => by simp [tickString],
    fun total e => by simp [tickString], fun total e => by simp [tickString], ?_⟩
  intro total pre e post hpre he
  unfold runLoop
  rw [runLoop_go_spec ⟨false, false⟩ total pre e post [] hpre he]
  simp [tickString]

/-- C7 witness: with both flags a tick shows the two values around the
separator; with neither flag a run over the readings 0, 12 against a
total of 10 repaints empty text once and prints only the final line. -/
theorem c7_witness :
    tickString ⟨true, true⟩ 10 4 = format_duration 4 ++ " | " ++ format_duration (10 - 4)
    ∧ runLoop ⟨false, false⟩ 10 [0, 12] =
        .finished (([0].map fun _ => OutputEvent.repaint "")
          ++ [.finalLine (format_duration 10)]) :=
  ⟨c7_separator_and_silent_mode.1 10 4,
    c7_separator_and_silent_mode.2.2.2.2 10 [0] 12 [] (by decide) (by decide)⟩

/-- C8: a token without any alphabetic character is split into itself
as the numeric text with the default unit s, and parse of the single
token 5 totals 5 seconds. -/
theorem c8_default_unit_seconds :
    (∀ s : String, (∀ c ∈ s.toList, ¬ c.isAlpha) →
        splitToken s.toList = (s.toList, ['s']))
    ∧ parse_duration ["5"] = .ok 5000000000 :=
  ⟨fun s h => splitToken_no_alpha s.toList h, by decide⟩

/-- C8 witness: the split of the unitless token 5. -/
theorem c8_witness :
    splitToken "5".toList = ("5".toList, ['s'])
    ∧ parse_duration ["5"] = .ok 5000000000 :=
  ⟨c8_default_unit_seconds.1 "5" (by decide), c8_default_unit_seconds.2⟩

/-- C9: parse of the empty token list returns Ok with a zero total
rather than an error. -/
theorem c9_empty_tokens_ok_zero : parse_duration [] = .ok 0 := rfl

/-- C10: a token starting with an alphabetic character has an empty
numeric part, and the numeric check runs before the unit check, so the
result is InvalidNumber even when the unit substring is also
unrecognized, as with x and abcs. -/
theorem c10_alpha_start_invalid_number :
    (∀ (acc : ℕ) (c : Char) (cs : List Char) (rest : List String),
        c.isAlpha = true →
        parse_duration.go acc (String.mk (c :: cs) :: rest) = .error .InvalidNumber)
    ∧ parse_duration ["x"] = .error .InvalidNumber
    ∧ parse_duration ["abcs"] = .error .InvalidNumber := by
  refine ⟨?_, by decide, by decide⟩
  intro acc c cs rest hc
  apply go_invalidNumber
  show parseF64 (splitToken (c :: cs)).1 = none
  unfold splitToken
  simp [List.findIdx?_cons, hc]
  rfl

/-- C10 witness: the single-letter token x. -/
theorem c10_witness :
    ('x'.isAlpha = true)
    ∧ parse_duration.go 0 [String.mk ['x']] = .error .InvalidNumber :=
  ⟨by decide, c10_alpha_start_invalid_number.1 0 'x' [] [] (by decide)⟩

end Snore
